import Mathlib

/-!
Verification of the remote Minecraft-server lifecycle controller
(`src/extensions/models/minecraft_server.ts`).

The controller is a collection of operations (`say`, `op`, `deop`,
`warnShutdown`, `stopMinecraftServer`, `status`, `startMinecraftServer`,
`collectMetrics`) that drive a server process hosted in a remote tmux
session over SSH.  Each operation is embedded here as a pure function from
an environment record (the responses the remote host would give to each
SSH command, plus a liveness oracle indexed by elapsed milliseconds) to a
trace of issued commands and a result record.  Remote commands are modelled
as instantaneous; the clock advances only at the explicit sleeps of the
source, so times in traces are the source's `Date.now()` deltas from the
start of the respective polling loop.
-/

namespace Swamp

/-- ASCII whitespace recognised by JavaScript `String.prototype.trim`
(the source never feeds it non-ASCII whitespace). -/
def isJsSpace (c : Char) : Bool :=
  c == ' ' || c == '\t' || c == '\n' || c == '\x0d' || c == '\x0b' || c == '\x0c'

/-- JavaScript `s.trim()` on a list of characters. -/
def jsTrimList (s : List Char) : List Char :=
  (s.dropWhile isJsSpace).reverse.dropWhile isJsSpace |>.reverse

/-- JavaScript `s.trim()`. -/
def jsTrim (s : String) : String :=
  String.mk (jsTrimList s.data)

def isDigitChar (c : Char) : Bool :=
  '0' ≤ c && c ≤ '9'

/-- Numeric value of a digit string (used for `parseInt(digits, 10)` where
the digits come from a `\d+` capture group). -/
def natOfDigits (ds : List Char) : Nat :=
  ds.foldl (fun acc c => 10 * acc + (c.toNat - '0'.toNat)) 0

/-- `parseInt(s.trim(), 10) || 0` as the source applies it to `wc -l`
output: the leading digit run of the trimmed string, or 0 when there is
none (`NaN || 0`).  `wc -l` output is nonnegative, so sign handling is
omitted. -/
def jsParseIntOr0 (s : String) : Nat :=
  let ds := (jsTrim s).data.takeWhile isDigitChar
  natOfDigits ds

/-- `s.split(sep)[0]`: the text before the first newline. -/
def firstLine (s : String) : String :=
  String.mk (s.data.takeWhile (fun c => c != '\n'))

/-- JavaScript `s.split(",")` on a list of characters: the chunks between
commas, empty chunks included. -/
def splitOnCommaAux : List Char → List Char → List (List Char)
  | [], acc => [acc.reverse]
  | c :: cs, acc =>
    if c == ',' then acc.reverse :: splitOnCommaAux cs []
    else splitOnCommaAux cs (c :: acc)

def splitOnComma (s : List Char) : List (List Char) :=
  splitOnCommaAux s []

/-- Strip a literal from the front of `s`, or fail. -/
def dropPrefixChars : List Char → List Char → Option (List Char)
  | [], s => some s
  | _ :: _, [] => none
  | p :: ps, c :: cs => if p == c then dropPrefixChars ps cs else none

/-- Attempt the regex `There are (\d+) of a max of (\d+) players online:(.*)`
anchored at the head of `s`.  The greedy `\d+` groups need no backtracking
because the literal that follows each starts with a non-digit, and the
final `(.*)` captures up to the next line terminator. -/
def matchPlayersAt (s : List Char) : Option (Nat × Nat × List Char) :=
  match dropPrefixChars "There are ".data s with
  | none => none
  | some r1 =>
    let d1 := r1.takeWhile isDigitChar
    if d1.isEmpty then none else
    match dropPrefixChars " of a max of ".data (r1.drop d1.length) with
    | none => none
    | some r2 =>
      let d2 := r2.takeWhile isDigitChar
      if d2.isEmpty then none else
      match dropPrefixChars " players online:".data (r2.drop d2.length) with
      | none => none
      | some r3 =>
        let rest := r3.takeWhile (fun c => !(c == '\n' || c == '\x0d'))
        some (natOfDigits d1, natOfDigits d2, rest)

/-- Leftmost match of the player-list regex, as JavaScript
`String.prototype.match` finds it. -/
def findPlayersMatch : List Char → Option (Nat × Nat × List Char)
  | [] => none
  | c :: cs =>
    match matchPlayersAt (c :: cs) with
    | some r => some r
    | none => findPlayersMatch cs

/-- Parsed status fields (`online`, `max`, `players`); `none` is the
JavaScript `null` the source writes when the regex does not match. -/
structure PlayersParse where
  online : Option Nat
  max : Option Nat
  players : List String
  deriving DecidableEq, Repr

/-- The parsing tail of `status` (source lines 295–308): regex-match the
fresh log text, convert the two counts, and split the capture on commas,
trimming each entry and dropping empties; an unmatched text yields
`online = null`, `max = null`, `players = []`. -/
def statusParse (newLines : String) : PlayersParse :=
  match findPlayersMatch newLines.data with
  | some (n, m, rest) =>
    let playerStr := jsTrimList rest
    let players :=
      if playerStr.isEmpty then []
      else ((((splitOnComma playerStr).map jsTrimList).filter
        (fun p => !p.isEmpty)).map String.mk)
    ⟨some n, some m, players⟩
  | none => ⟨none, none, []⟩

/-- The spec's description of the player-name extraction, stated
independently of the source: the capture with surrounding whitespace
trimmed, split on commas, each entry trimmed, empty entries dropped. -/
def specPlayerNames (rest : List Char) : List String :=
  ((((splitOnComma (jsTrimList rest)).map jsTrimList).filter
    (fun p => !p.isEmpty)).map String.mk)

/-- Modelled from the spec: `isValidSshHost` lives in `lib/ssh.ts`, which is
not part of this repository snapshot.  The spec's Transport Gate calls a
missing/empty host NOT_CONFIGURED ("no host given"), so the gate accepts
exactly a present, non-empty host string. -/
def isValidSshHost : Option String → Bool
  | none => false
  | some h => !h.isEmpty

/-- The SSH commands the controller issues, abstracted to their role; for
`tmux send-keys` the payload is the console line typed into the session. -/
inductive Cmd where
  | echoOk
  | tmuxHasSession
  | pgrepJava
  | pgrepPid
  | sendKeys (text : String)
  | kill0
  | killSession
  | wcLog
  | tailLog (fromLine : Nat)
  | waitSsh
  | truncateLog
  | truncateStartLog
  | newSession
  | grepReady
  | catStartLog
  | writeMetrics
  deriving DecidableEq, Repr

/-- Commands that mutate remote state, as opposed to read-only checks. -/
def Cmd.mutating : Cmd → Bool
  | .sendKeys _ => true
  | .killSession => true
  | .truncateLog => true
  | .truncateStartLog => true
  | .newSession => true
  | .writeMetrics => true
  | _ => false

/-- Environment for the operations that only need the transport gate and
the tmux-session existence check. -/
structure SimpleEnv where
  sshHost : Option String
  tmuxExists : Bool

/-- Result record written by `say`/`op`/`deop`/`warnShutdown`. -/
structure SimpleRes where
  success : Bool
  skipped : Bool
  deriving DecidableEq, Repr

/-- `say` (source lines 53–76): throws when the message is empty, skips
when no host is configured or the session is missing, otherwise types
`say <message>` into the session. -/
def say (message : String) (env : SimpleEnv) :
    Except String (List Cmd × SimpleRes) :=
  if message.isEmpty then .error "message is required"
  else if !isValidSshHost env.sshHost then .ok ([], ⟨true, true⟩)
  else if !env.tmuxExists then .ok ([Cmd.tmuxHasSession], ⟨true, true⟩)
  else .ok ([Cmd.tmuxHasSession, Cmd.sendKeys ("say " ++ message)],
    ⟨true, false⟩)

/-- `playerName.replace(/[^a-zA-Z0-9_]/g, "")`. -/
def isWordChar (c : Char) : Bool :=
  ('a' ≤ c && c ≤ 'z') || ('A' ≤ c && c ≤ 'Z') || isDigitChar c || c == '_'

def sanitize (playerName : String) : String :=
  String.mk (playerName.data.filter isWordChar)

/-- `op` (source lines 84–107): throws on an empty name, sanitizes it,
then types `op <sanitized>` when the gate and session checks pass. -/
def opPlayer (playerName : String) (env : SimpleEnv) :
    Except String (List Cmd × SimpleRes) :=
  if playerName.isEmpty then .error "playerName is required"
  else
    let sanitized := sanitize playerName
    if !isValidSshHost env.sshHost then .ok ([], ⟨true, true⟩)
    else if !env.tmuxExists then .ok ([Cmd.tmuxHasSession], ⟨true, true⟩)
    else .ok ([Cmd.tmuxHasSession, Cmd.sendKeys ("op " ++ sanitized)],
      ⟨true, false⟩)

/-- `deop` (source lines 115–138): same shape as `op` with the `deop`
console command. -/
def deopPlayer (playerName : String) (env : SimpleEnv) :
    Except String (List Cmd × SimpleRes) :=
  if playerName.isEmpty then .error "playerName is required"
  else
    let sanitized := sanitize playerName
    if !isValidSshHost env.sshHost then .ok ([], ⟨true, true⟩)
    else if !env.tmuxExists then .ok ([Cmd.tmuxHasSession], ⟨true, true⟩)
    else .ok ([Cmd.tmuxHasSession, Cmd.sendKeys ("deop " ++ sanitized)],
      ⟨true, false⟩)

/-- `warnShutdown` (source lines 144–174): broadcasts the warning three
times, then pauses 30 s; skips when the gate or session check fails. -/
def warnShutdown (env : SimpleEnv) : List Cmd × SimpleRes :=
  if !isValidSshHost env.sshHost then ([], ⟨true, true⟩)
  else if !env.tmuxExists then ([Cmd.tmuxHasSession], ⟨true, true⟩)
  else
    ([Cmd.tmuxHasSession,
      Cmd.sendKeys "say == SERVER SHUTTING DOWN IN 30 SECONDS ==",
      Cmd.sendKeys "say == SERVER SHUTTING DOWN IN 30 SECONDS ==",
      Cmd.sendKeys "say == SERVER SHUTTING DOWN IN 30 SECONDS =="],
     ⟨true, false⟩)

/-! ## Shutdown orchestrator -/

/-- Environment for `stopMinecraftServer`: transport state, the two
liveness pre-checks, the `pgrep` output used as the tracked pid, and an
oracle giving the `kill -0` answer at each elapsed millisecond. -/
structure StopEnv where
  sshHost : Option String
  reachable : Bool
  tmuxExists : Bool
  javaRunning : Bool
  pgrepOut : String
  aliveAt : Nat → Bool

structure StopRes where
  success : Bool
  alreadyStopped : Bool
  timedOut : Bool
  deriving DecidableEq, Repr

def stopPollIntervalMs : Nat := 3000
def stopPollDeadlineMs : Nat := 90000

/-- The pid-wait loop of `stopMinecraftServer` (source lines 226–234):
while the clock is before the deadline, sleep one interval, then probe the
pid; break on the first observed death.  Returns the timed trace of
`kill -0` probes and the clock value at loop exit.  `fuel` is an upper
bound on iterations (30 suffice from a zero start). -/
def stopLoop (alive : Nat → Bool) : Nat → Nat → List (Nat × Cmd) × Nat
  | 0, t => ([], t)
  | fuel + 1, t =>
    if t < stopPollDeadlineMs then
      let t1 := t + stopPollIntervalMs
      if alive t1 then
        let r := stopLoop alive fuel t1
        ((t1, Cmd.kill0) :: r.1, r.2)
      else ([(t1, Cmd.kill0)], t1)
    else ([], t)

/-- `stopMinecraftServer` (source lines 180–248).  The tracked pid is the
first line of the trimmed `pgrep` output; after the wait loop the session
is killed unconditionally and `timedOut` records whether the exit-time
clock reached the deadline. -/
def stopMinecraftServer (env : StopEnv) : List (Nat × Cmd) × StopRes :=
  if !isValidSshHost env.sshHost then ([], ⟨true, true, false⟩)
  else if !env.reachable then ([(0, Cmd.echoOk)], ⟨true, true, false⟩)
  else
    let checks := [(0, Cmd.echoOk), (0, Cmd.tmuxHasSession),
      (0, Cmd.pgrepJava)]
    if !env.tmuxExists && !env.javaRunning then (checks, ⟨true, true, false⟩)
    else
      let pre := checks ++
        (if env.tmuxExists then [(0, Cmd.sendKeys "stop")] else []) ++
        [(0, Cmd.pgrepPid)]
      let r := stopLoop env.aliveAt 40 0
      let timedOut := decide (stopPollDeadlineMs ≤ r.2)
      (pre ++ r.1 ++ [(r.2, Cmd.killSession)], ⟨true, false, timedOut⟩)

/-! ## Status query and metrics collection -/

/-- Environment for the two query operations: transport state, session
existence, the `wc -l` output captured as the watermark, and the log file
contents (as lines) at the moment of the tail read. -/
structure QueryEnv where
  sshHost : Option String
  reachable : Bool
  tmuxExists : Bool
  wcOut : String
  log : List String

/-- `tail -n +k` output: the selected lines, each newline-terminated. -/
def linesText (ls : List String) : String :=
  ls.foldr (fun l acc => l ++ "\n" ++ acc) ""

structure StatusRes where
  serverRunning : Bool
  online : Option Nat
  max : Option Nat
  players : List String
  deriving DecidableEq, Repr

structure StatusRun where
  trace : List Cmd
  readLines : List String
  res : StatusRes
  deriving DecidableEq, Repr

/-- `status` (source lines 254–309): gate, reachability and session
checks, then watermark capture (`wc -l`), the `list` console command, a
2 s settle wait, a tail from line `watermark + 1`, and the parse. -/
def status (env : QueryEnv) : StatusRun :=
  if !isValidSshHost env.sshHost then ⟨[], [], ⟨false, none, none, []⟩⟩
  else if !env.reachable then ⟨[Cmd.echoOk], [], ⟨false, none, none, []⟩⟩
  else if !env.tmuxExists then
    ⟨[Cmd.echoOk, Cmd.tmuxHasSession], [], ⟨false, none, none, []⟩⟩
  else
    let lineCount := jsParseIntOr0 env.wcOut
    let readLines := env.log.drop lineCount
    let p := statusParse (linesText readLines)
    ⟨[Cmd.echoOk, Cmd.tmuxHasSession, Cmd.wcLog, Cmd.sendKeys "list",
      Cmd.tailLog (lineCount + 1)],
     readLines, ⟨true, p.online, p.max, p.players⟩⟩

structure MetricsRun where
  trace : List Cmd
  readLines : List String
  res : StatusRes
  deriving DecidableEq, Repr

/-- `collectMetrics` (source lines 389–435): same query phase as `status`,
but an unmatched response writes `online = 0` (a number, for the gauge)
with `max = null`, and the metrics files are written afterwards. -/
def collectMetrics (env : QueryEnv) : MetricsRun :=
  if !isValidSshHost env.sshHost then ⟨[], [], ⟨false, some 0, none, []⟩⟩
  else if !env.reachable then ⟨[Cmd.echoOk], [], ⟨false, some 0, none, []⟩⟩
  else if !env.tmuxExists then
    ⟨[Cmd.echoOk, Cmd.tmuxHasSession, Cmd.writeMetrics], [],
     ⟨false, some 0, none, []⟩⟩
  else
    let lineCount := jsParseIntOr0 env.wcOut
    let readLines := env.log.drop lineCount
    let trace := [Cmd.echoOk, Cmd.tmuxHasSession, Cmd.wcLog,
      Cmd.sendKeys "list", Cmd.tailLog (lineCount + 1), Cmd.writeMetrics]
    match findPlayersMatch (linesText readLines).data with
    | some (n, m, rest) =>
      let playerStr := jsTrimList rest
      let players :=
        if playerStr.isEmpty then []
        else ((((splitOnComma playerStr).map jsTrimList).filter
          (fun p => !p.isEmpty)).map String.mk)
      ⟨trace, readLines, ⟨true, some n, some m, players⟩⟩
    | none => ⟨trace, readLines, ⟨true, some 0, none, []⟩⟩

/-! ## Startup and readiness poller -/

/-- Environment for `startMinecraftServer`: transport state, the
`tmux new-session` exit code and stderr, oracles for the ready-marker grep
and the session-liveness check at each elapsed millisecond, and the
captured startup log contents. -/
structure StartEnv where
  sshHost : Option String
  sshReady : Bool
  newSessionCode : Nat
  newSessionStderr : String
  readyAt : Nat → Bool
  aliveAt : Nat → Bool
  startLogContent : String

inductive PollOut where
  | ready (t : Nat)
  | died (t : Nat)
  | deadline (t : Nat)
  deriving DecidableEq, Repr

def readyPollIntervalMs : Nat := 5000
def readyDeadlineMs : Nat := 900000

/-- The readiness loop of `startMinecraftServer` (source lines 355–374):
while the clock is before the deadline, grep the log for the ready marker
(success), then check the session is still alive (early-death failure),
then sleep one interval.  Returns the timed trace of probes and the
outcome.  `fuel` bounds iterations (180 suffice from a zero start). -/
def startLoop (env : StartEnv) : Nat → Nat → List (Nat × Cmd) × PollOut
  | 0, t => ([], .deadline t)
  | fuel + 1, t =>
    if t < readyDeadlineMs then
      if env.readyAt t then ([(t, Cmd.grepReady)], .ready t)
      else if !env.aliveAt t then
        ([(t, Cmd.grepReady), (t, Cmd.tmuxHasSession)], .died t)
      else
        let r := startLoop env fuel (t + readyPollIntervalMs)
        ((t, Cmd.grepReady) :: (t, Cmd.tmuxHasSession) :: r.1, r.2)
    else ([], .deadline t)

/-- The error message raised when the session dies before readiness
(source line 368), carrying the captured startup output. -/
def earlyExitMsg (startOutput : String) : String :=
  "Server process exited before becoming ready. start.sh output:\n"
    ++ startOutput

/-- The error message raised when the ready marker never appears within
the deadline (source line 378). -/
def notReadyMsg (startOutput : String) : String :=
  "Minecraft server did not become ready within 900s. start.sh output:\n"
    ++ startOutput

inductive StartOutcome where
  | ok (t : Nat)
  | err (msg : String)
  deriving DecidableEq, Repr

structure StartRun where
  trace : List (Nat × Cmd)
  outcome : StartOutcome
  deriving DecidableEq, Repr

/-- `startMinecraftServer` (source lines 315–383): gate and SSH wait, kill
of any stale session, truncation of both logs, creation of the new
session, then the readiness poll; poll failures re-read the startup log
and raise, carrying its contents. -/
def startMinecraftServer (env : StartEnv) : StartRun :=
  if !isValidSshHost env.sshHost then
    ⟨[], .err "sshHost is required - is the VM running?"⟩
  else if !env.sshReady then
    ⟨[(0, Cmd.waitSsh)],
     .err ("SSH not reachable on " ++ (env.sshHost.getD "") ++ " after 60s")⟩
  else
    let pre := [(0, Cmd.waitSsh), (0, Cmd.killSession), (0, Cmd.truncateLog),
      (0, Cmd.truncateStartLog), (0, Cmd.newSession)]
    if env.newSessionCode ≠ 0 then
      ⟨pre, .err ("Failed to start tmux session: " ++ env.newSessionStderr)⟩
    else
      let r := startLoop env 200 0
      match r.2 with
      | .ready t => ⟨pre ++ r.1, .ok t⟩
      | .died t =>
        ⟨pre ++ r.1 ++ [(t, Cmd.catStartLog)],
         .err (earlyExitMsg env.startLogContent)⟩
      | .deadline t =>
        ⟨pre ++ r.1 ++ [(t, Cmd.catStartLog)],
         .err (notReadyMsg env.startLogContent)⟩

/-! ## Theorems -/

/-- C1: for every log-tail text read by `status`, a line matching
`There are N of a max of M players online: <rest>` yields `online = N`,
`max = M` and the comma-separated names of `<rest>` trimmed with empty
entries dropped; the stated example and its trailing-comma/whitespace
variant parse identically; unmatched text yields `online = null`,
`players = []` (the parse is a total function — no error is raised). -/
theorem status_parse_round_trip :
    (∀ text : String, findPlayersMatch text.data = none →
      statusParse text = ⟨none, none, []⟩)
  ∧ (∀ (text : String) (n m : Nat) (rest : List Char),
      findPlayersMatch text.data = some (n, m, rest) →
      statusParse text = ⟨some n, some m, specPlayerNames rest⟩)
  ∧ statusParse "There are 2 of a max of 20 players online: Alice, Bob"
      = ⟨some 2, some 20, ["Alice", "Bob"]⟩
  ∧ statusParse "There are 2 of a max of 20 players online: Alice , Bob ,  "
      = ⟨some 2, some 20, ["Alice", "Bob"]⟩ := by
  refine ⟨?_, ?_, by decide, by decide⟩
  · intro text h
    unfold statusParse
    rw [h]
  · intro text n m rest h
    unfold statusParse
    rw [h]
    dsimp only
    by_cases hp : (jsTrimList rest).isEmpty
    · rw [List.isEmpty_iff] at hp
      simp only [hp, List.isEmpty_nil, if_true]
      unfold specPlayerNames
      rw [hp]
      congr 1
    · unfold specPlayerNames
      simp only [hp, if_false, Bool.false_eq_true]

/-- Witness for C1 at concrete inputs. -/
theorem status_parse_round_trip_witness :
    statusParse "no player line in this text" = ⟨none, none, []⟩ :=
  status_parse_round_trip.1 "no player line in this text" (by decide)

/-- The last element of `a :: (l₁ ++ (l₂ ++ [c]))` is `c`. -/
lemma getLast?_cons_append_append_concat {α : Type} (a c : α)
    (l₁ l₂ : List α) :
    (a :: (l₁ ++ (l₂ ++ [c]))).getLast? = some c := by
  have h : a :: (l₁ ++ (l₂ ++ [c])) = (a :: (l₁ ++ l₂)) ++ [c] := by simp
  rw [h, List.getLast?_concat]

/-- One unfolding step of the pid-wait loop. -/
lemma stopLoop_succ (alive : Nat → Bool) (fuel t : Nat) :
    stopLoop alive (fuel + 1) t =
      if t < stopPollDeadlineMs then
        if alive (t + stopPollIntervalMs) then
          ((t + stopPollIntervalMs, Cmd.kill0) ::
            (stopLoop alive fuel (t + stopPollIntervalMs)).1,
           (stopLoop alive fuel (t + stopPollIntervalMs)).2)
        else ([(t + stopPollIntervalMs, Cmd.kill0)], t + stopPollIntervalMs)
      else ([], t) := rfl

/-- When the pid never dies, the wait loop runs the clock to exactly the
deadline (checks advance in whole intervals from a clock aligned to the
interval). -/
lemma stopLoop_alive_exit (alive : Nat → Bool) (h : ∀ t, alive t = true) :
    ∀ fuel t, t % stopPollIntervalMs = 0 → t ≤ stopPollDeadlineMs →
      stopPollDeadlineMs ≤ t + stopPollIntervalMs * fuel →
      (stopLoop alive fuel t).2 = stopPollDeadlineMs := by
  intro fuel
  induction fuel with
  | zero =>
    intro t hmod hle hge
    simp only [Nat.mul_zero, Nat.add_zero] at hge
    have : t = stopPollDeadlineMs := Nat.le_antisymm hle hge
    simp [stopLoop, this]
  | succ fuel ih =>
    intro t hmod hle hge
    rw [stopLoop_succ]
    simp only [stopPollIntervalMs, stopPollDeadlineMs] at hmod hle hge ⊢
    by_cases hlt : t < 90000
    · rw [if_pos hlt, h (t + 3000), if_pos rfl]
      have := ih (t + 3000)
        (by simp only [stopPollIntervalMs]; omega)
        (by simp only [stopPollDeadlineMs]; omega)
        (by simp only [stopPollIntervalMs, stopPollDeadlineMs]; omega)
      simpa [stopPollIntervalMs, stopPollDeadlineMs] using this
    · rw [if_neg hlt]
      omega

/-- C2: every `stopMinecraftServer` run past the already-stopped checks
(a) reports `timedOut = false` when the pid is seen alive at the first
probe (3 s) and dead at the second (6 s); (b) reports `timedOut = true`
with the session kill stamped at exactly the 90 s deadline when the pid is
never seen dead; and (c) in all such runs the session-kill command is the
last command issued before returning. -/
theorem stop_pid_tracking (env : StopEnv)
    (hv : isValidSshHost env.sshHost = true)
    (hr : env.reachable = true)
    (hp : env.tmuxExists = true ∨ env.javaRunning = true) :
    (env.aliveAt 3000 = true → env.aliveAt 6000 = false →
      (stopMinecraftServer env).2.timedOut = false)
  ∧ ((∀ t, env.aliveAt t = true) →
      (stopMinecraftServer env).2.timedOut = true ∧
      (stopMinecraftServer env).1.getLast? = some (90000, Cmd.killSession))
  ∧ ((stopMinecraftServer env).1.map Prod.snd).getLast? =
      some Cmd.killSession := by
  have hcheck : (!env.tmuxExists && !env.javaRunning) = false := by
    rcases hp with h | h <;> simp [h]
  refine ⟨?_, ?_, ?_⟩
  · intro h3 h6
    have e : stopLoop env.aliveAt 40 0 =
        ([(3000, Cmd.kill0), (6000, Cmd.kill0)], 6000) := by
      rw [show (40 : Nat) = 39 + 1 from rfl, stopLoop_succ]
      norm_num [stopPollIntervalMs, stopPollDeadlineMs, h3]
      rw [show (39 : Nat) = 38 + 1 from rfl, stopLoop_succ]
      norm_num [stopPollIntervalMs, stopPollDeadlineMs, h6]
    simp [stopMinecraftServer, hv, hr, hcheck, e]
    decide
  · intro halive
    have e : (stopLoop env.aliveAt 40 0).2 = stopPollDeadlineMs :=
      stopLoop_alive_exit env.aliveAt halive 40 0 (by decide) (by decide)
        (by decide)
    simp only [stopMinecraftServer, hv, hr, hcheck, Bool.not_true,
      Bool.false_eq_true, if_false, ite_false]
    constructor
    · simp [e]
    · rw [List.getLast?_concat]
      simp [e, stopPollDeadlineMs]
  · simp only [stopMinecraftServer, hv, hr, hcheck, Bool.not_true,
      Bool.false_eq_true, if_false, ite_false]
    rw [List.map_append, List.map_append]
    simp only [List.map_cons, List.map_nil, List.cons_append,
      List.nil_append, List.append_assoc]
    rw [List.getLast?_cons_cons, List.getLast?_cons_cons]
    exact getLast?_cons_append_append_concat _ _ _ _

/-- Times of the `kill -0` pid probes in a trace. -/
def pidCheckTimes (trace : List (Nat × Cmd)) : List Nat :=
  trace.filterMap (fun p => if p.2 == Cmd.kill0 then some p.1 else none)

/-- Times of the ready-marker greps in a trace. -/
def readyCheckTimes (trace : List (Nat × Cmd)) : List Nat :=
  trace.filterMap (fun p => if p.2 == Cmd.grepReady then some p.1 else none)

/-- A reachable target whose pid never dies: the shutdown poll runs to its
deadline. -/
def stopEnvNeverDead : StopEnv :=
  ⟨some "host", true, true, true, "4242", fun _ => true⟩

/-- A live session that never prints the ready marker: the readiness poll
runs to its deadline. -/
def startEnvNeverReady : StartEnv :=
  ⟨some "host", true, 0, "", fun _ => false, fun _ => true, "startup output"⟩

set_option maxRecDepth 10000 in
/-- C3: on the runs that exhaust their deadline, both polling loops keep
checking to the very end.  The pid-liveness poll (interval 3 s, deadline
90 s) probes at 3000, 6000, …, 90000 ms — its last probe falls exactly at
the deadline, i.e. the iteration whose sleep crosses the deadline still
probes once after waking before `timedOut` is declared.  The readiness
poll (interval 5 s, deadline 900 s) greps at 0, 5000, …, 895000 ms — its
last check is one interval before the deadline, i.e. the iteration whose
sleep crosses the deadline performed its check, and only then is the
timeout error raised.  (Both loops test elapsed time against the deadline
at the top of every iteration, before and after each sleep.) -/
theorem polling_loops_final_check :
    pidCheckTimes (stopMinecraftServer stopEnvNeverDead).1
      = (List.range 30).map (fun k => stopPollIntervalMs * (k + 1))
  ∧ (pidCheckTimes (stopMinecraftServer stopEnvNeverDead).1).getLast?
      = some stopPollDeadlineMs
  ∧ (stopMinecraftServer stopEnvNeverDead).2.timedOut = true
  ∧ readyCheckTimes (startMinecraftServer startEnvNeverReady).trace
      = (List.range 180).map (fun k => readyPollIntervalMs * k)
  ∧ (readyCheckTimes (startMinecraftServer startEnvNeverReady).trace).getLast?
      = some (readyDeadlineMs - readyPollIntervalMs)
  ∧ (startMinecraftServer startEnvNeverReady).outcome
      = .err (notReadyMsg "startup output") := by
  refine ⟨by decide, by decide, by decide, by decide, by decide, by decide⟩

/-- C4: in every `status` and `collectMetrics` run that reaches the query
phase, the watermark read (`wc -l`) is issued strictly before the `list`
console command, and the tail read returns exactly the log lines past the
watermark (`drop watermark` = the lines at 1-based index > watermark). -/
theorem watermark_before_query (env : QueryEnv)
    (hv : isValidSshHost env.sshHost = true)
    (hr : env.reachable = true)
    (ht : env.tmuxExists = true) :
    ((status env).trace.take 4
       = [Cmd.echoOk, Cmd.tmuxHasSession, Cmd.wcLog, Cmd.sendKeys "list"]
     ∧ (status env).trace.indexOf Cmd.wcLog <
         (status env).trace.indexOf (Cmd.sendKeys "list")
     ∧ (status env).readLines = env.log.drop (jsParseIntOr0 env.wcOut))
  ∧ ((collectMetrics env).trace.take 4
       = [Cmd.echoOk, Cmd.tmuxHasSession, Cmd.wcLog, Cmd.sendKeys "list"]
     ∧ (collectMetrics env).trace.indexOf Cmd.wcLog <
         (collectMetrics env).trace.indexOf (Cmd.sendKeys "list")
     ∧ (collectMetrics env).readLines = env.log.drop (jsParseIntOr0 env.wcOut)) := by
  have hs : status env =
      ⟨[Cmd.echoOk, Cmd.tmuxHasSession, Cmd.wcLog, Cmd.sendKeys "list",
        Cmd.tailLog (jsParseIntOr0 env.wcOut + 1)],
       env.log.drop (jsParseIntOr0 env.wcOut),
       ⟨true, (statusParse (linesText (env.log.drop (jsParseIntOr0 env.wcOut)))).online,
        (statusParse (linesText (env.log.drop (jsParseIntOr0 env.wcOut)))).max,
        (statusParse (linesText (env.log.drop (jsParseIntOr0 env.wcOut)))).players⟩⟩ := by
    simp [status, hv, hr, ht]
  have hmtrace : (collectMetrics env).trace =
      [Cmd.echoOk, Cmd.tmuxHasSession, Cmd.wcLog, Cmd.sendKeys "list",
       Cmd.tailLog (jsParseIntOr0 env.wcOut + 1), Cmd.writeMetrics] ∧
      (collectMetrics env).readLines = env.log.drop (jsParseIntOr0 env.wcOut) := by
    simp only [collectMetrics, hv, hr, ht, Bool.not_true, Bool.false_eq_true,
      if_false, ite_false]
    cases hm : findPlayersMatch
        (linesText (env.log.drop (jsParseIntOr0 env.wcOut))).data with
    | none => exact ⟨rfl, rfl⟩
    | some r =>
      obtain ⟨n, m, rest⟩ := r
      exact ⟨rfl, rfl⟩
  refine ⟨⟨?_, ?_, ?_⟩, ⟨?_, ?_, ?_⟩⟩
  · rw [hs]
    rfl
  · rw [hs]
    dsimp only
    rw [List.indexOf_cons_ne _ (by decide), List.indexOf_cons_ne _ (by decide),
      List.indexOf_cons_self, List.indexOf_cons_ne _ (by decide),
      List.indexOf_cons_ne _ (by decide), List.indexOf_cons_ne _ (by decide),
      List.indexOf_cons_self]
    omega
  · rw [hs]
  · rw [hmtrace.1]
    rfl
  · rw [hmtrace.1]
    rw [List.indexOf_cons_ne _ (by decide), List.indexOf_cons_ne _ (by decide),
      List.indexOf_cons_self, List.indexOf_cons_ne _ (by decide),
      List.indexOf_cons_ne _ (by decide), List.indexOf_cons_ne _ (by decide),
      List.indexOf_cons_self]
    omega
  · exact hmtrace.2

/-- Witness for C4 at a concrete environment. -/
theorem watermark_before_query_witness :
    (status ⟨some "h", true, true, "2", ["a", "b", "c", "d"]⟩).readLines
      = ["c", "d"] :=
  ((watermark_before_query ⟨some "h", true, true, "2", ["a", "b", "c", "d"]⟩
    rfl rfl rfl).1.2.2).trans (by decide)

/-- C5 counterexample: `say` validates its argument before the transport
gate, so invoking it with the (default) empty message and no host raises
`message is required` instead of returning the skipped result. -/
theorem say_empty_message_no_host_errors :
    say "" ⟨none, false⟩ = Except.error "message is required" := rfl

/-- C5 (amended): with no SSH host configured and — for `say`/`op`/`deop` —
a non-empty argument, every lifecycle operation returns its
skipped / already-stopped / not-running result with an empty command
trace, i.e. without any remote command execution. -/
theorem no_host_short_circuit (msg pn : String) (env : SimpleEnv)
    (senv : StopEnv) (qenv : QueryEnv)
    (hm : msg.isEmpty = false) (hpn : pn.isEmpty = false)
    (he : isValidSshHost env.sshHost = false)
    (hs : isValidSshHost senv.sshHost = false)
    (hq : isValidSshHost qenv.sshHost = false) :
    say msg env = Except.ok ([], ⟨true, true⟩)
  ∧ opPlayer pn env = Except.ok ([], ⟨true, true⟩)
  ∧ deopPlayer pn env = Except.ok ([], ⟨true, true⟩)
  ∧ warnShutdown env = ([], ⟨true, true⟩)
  ∧ stopMinecraftServer senv = ([], ⟨true, true, false⟩)
  ∧ status qenv = ⟨[], [], ⟨false, none, none, []⟩⟩ := by
  refine ⟨?_, ?_, ?_, ?_, ?_, ?_⟩ <;>
    simp [say, opPlayer, deopPlayer, warnShutdown, stopMinecraftServer,
      status, hm, hpn, he, hs, hq]

/-- Witness for C5 (amended) at concrete inputs. -/
theorem no_host_short_circuit_witness :
    say "hello" ⟨none, true⟩ = Except.ok ([], ⟨true, true⟩) :=
  (no_host_short_circuit "hello" "Steve" ⟨none, true⟩
    ⟨none, true, true, true, "1", fun _ => true⟩
    ⟨none, true, true, "0", []⟩ rfl rfl rfl rfl rfl).1

/-- A target in any of the three already-stopped shapes reports
already-stopped and issues no mutating command. -/
lemma stop_already_stopped_of (e : StopEnv)
    (h : isValidSshHost e.sshHost = false ∨ e.reachable = false ∨
      (e.tmuxExists = false ∧ e.javaRunning = false)) :
    (stopMinecraftServer e).2 = ⟨true, true, false⟩
  ∧ ∀ c ∈ (stopMinecraftServer e).1, c.2.mutating = false := by
  have hred : stopMinecraftServer e = ([], ⟨true, true, false⟩)
      ∨ stopMinecraftServer e = ([(0, Cmd.echoOk)], ⟨true, true, false⟩)
      ∨ stopMinecraftServer e =
          ([(0, Cmd.echoOk), (0, Cmd.tmuxHasSession), (0, Cmd.pgrepJava)],
           ⟨true, true, false⟩) := by
    by_cases hv : isValidSshHost e.sshHost
    · by_cases hr : e.reachable
      · rcases h with h | h | ⟨h1, h2⟩
        · rw [hv] at h
          exact absurd h (by simp)
        · rw [hr] at h
          exact absurd h (by simp)
        · right; right
          have hcond : (!e.tmuxExists && !e.javaRunning) = true := by
            simp [h1, h2]
          simp only [stopMinecraftServer, hv, hr, hcond, Bool.not_true,
            Bool.false_eq_true, if_false, if_true, ite_true, ite_false]
      · right; left
        have hr' : e.reachable = false := by simpa using hr
        simp only [stopMinecraftServer, hv, hr', Bool.not_true,
          Bool.not_false, Bool.false_eq_true, if_false, if_true,
          ite_true, ite_false]
    · left
      have hv' : isValidSshHost e.sshHost = false := by simpa using hv
      simp only [stopMinecraftServer, hv', Bool.not_false, if_true, ite_true]
  rcases hred with hred | hred | hred <;> rw [hred] <;>
    exact ⟨rfl, by decide⟩

/-- C6: invoking `stopMinecraftServer` twice in sequence on an
already-stopped target (host unset, transport unreachable, or neither
session nor hosted process present) yields `success = true` and
`alreadyStopped = true` both times, and neither run issues a
state-mutating remote command.  (The model of this path is a total
function: no error is raised.) -/
theorem stop_idempotent_already_stopped (e1 e2 : StopEnv)
    (h1 : isValidSshHost e1.sshHost = false ∨ e1.reachable = false ∨
      (e1.tmuxExists = false ∧ e1.javaRunning = false))
    (h2 : isValidSshHost e2.sshHost = false ∨ e2.reachable = false ∨
      (e2.tmuxExists = false ∧ e2.javaRunning = false)) :
    (stopMinecraftServer e1).2 = ⟨true, true, false⟩
  ∧ (stopMinecraftServer e2).2 = ⟨true, true, false⟩
  ∧ (∀ c ∈ (stopMinecraftServer e1).1, c.2.mutating = false)
  ∧ (∀ c ∈ (stopMinecraftServer e2).1, c.2.mutating = false) :=
  ⟨(stop_already_stopped_of e1 h1).1, (stop_already_stopped_of e2 h2).1,
   (stop_already_stopped_of e1 h1).2, (stop_already_stopped_of e2 h2).2⟩

/-- Witness for C6: two consecutive stops of a reachable host with no
session and no java process. -/
theorem stop_idempotent_already_stopped_witness :
    (stopMinecraftServer
      ⟨some "h", true, false, false, "", fun _ => true⟩).2
        = ⟨true, true, false⟩
  ∧ (stopMinecraftServer
      ⟨some "h", true, false, false, "", fun _ => true⟩).2
        = ⟨true, true, false⟩ :=
  ⟨(stop_idempotent_already_stopped
      ⟨some "h", true, false, false, "", fun _ => true⟩
      ⟨some "h", true, false, false, "", fun _ => true⟩
      (Or.inr (Or.inr ⟨rfl, rfl⟩)) (Or.inr (Or.inr ⟨rfl, rfl⟩))).1,
   (stop_idempotent_already_stopped
      ⟨some "h", true, false, false, "", fun _ => true⟩
      ⟨some "h", true, false, false, "", fun _ => true⟩
      (Or.inr (Or.inr ⟨rfl, rfl⟩)) (Or.inr (Or.inr ⟨rfl, rfl⟩))).2.1⟩

/-- An environment whose fresh log text does not match the player-list
regex, while the session exists. -/
def envUnmatched : QueryEnv := ⟨some "h", true, true, "0", ["junk line"]⟩

/-- C7 counterexample: on an unmatched response with the session alive,
`collectMetrics` reports `online = 0` — the number zero, not the distinct
unknown value `null` the claim requires for both query operations. -/
theorem collectMetrics_unmatched_reports_zero :
    (collectMetrics envUnmatched).res.online = some 0
  ∧ (collectMetrics envUnmatched).res.online ≠ none := by
  refine ⟨by decide, by decide⟩

/-- C7 (amended): while the session exists, an unmatched or unparseable
response degrades rather than fails — `status` reports
`online = null` (`none`) with `players = []`, while `collectMetrics`
reports `online = 0` with `max = null` and `players = []`; both still
report `serverRunning = true` and neither raises an error (both models
are total functions). -/
theorem query_unmatched_degraded (env : QueryEnv)
    (hv : isValidSshHost env.sshHost = true)
    (hr : env.reachable = true)
    (ht : env.tmuxExists = true)
    (hu : findPlayersMatch
      (linesText (env.log.drop (jsParseIntOr0 env.wcOut))).data = none) :
    (status env).res = ⟨true, none, none, []⟩
  ∧ (collectMetrics env).res = ⟨true, some 0, none, []⟩ := by
  have hp : statusParse (linesText (env.log.drop (jsParseIntOr0 env.wcOut)))
      = ⟨none, none, []⟩ := by
    unfold statusParse
    rw [hu]
  constructor
  · simp [status, hv, hr, ht, hp]
  · simp [collectMetrics, hv, hr, ht, hu]

/-- Witness for C7 (amended) at a concrete environment. -/
theorem query_unmatched_degraded_witness :
    (status ⟨some "h", true, true, "0", ["junk line"]⟩).res
      = ⟨true, none, none, []⟩ :=
  (query_unmatched_degraded ⟨some "h", true, true, "0", ["junk line"]⟩
    rfl rfl rfl (by decide)).1

/-- A death verdict can only be produced by an iteration that started
before the deadline, so its clock value is strictly below the deadline. -/
lemma startLoop_died_bound (env : StartEnv) :
    ∀ fuel t0 t, (startLoop env fuel t0).2 = .died t → t < readyDeadlineMs := by
  intro fuel
  induction fuel with
  | zero =>
    intro t0 t h
    simp [startLoop] at h
  | succ fuel ih =>
    intro t0 t h
    simp only [startLoop] at h
    by_cases hlt : t0 < readyDeadlineMs
    · rw [if_pos hlt] at h
      by_cases hr : env.readyAt t0 = true
      · rw [if_pos hr] at h
        simp at h
      · rw [if_neg hr] at h
        by_cases ha : (!env.aliveAt t0) = true
        · rw [if_pos ha] at h
          simp at h
          omega
        · rw [if_neg ha] at h
          exact ih _ _ h
    · rw [if_neg hlt] at h
      simp at h

/-- C8: if the session disappears before the ready marker is seen — the
poll reaches a DEAD verdict at clock `t` — then `startMinecraftServer`
raises the early-exit error carrying the captured startup output, and the
verdict falls strictly before the readiness deadline. -/
theorem start_early_death (env : StartEnv) (t : Nat)
    (hv : isValidSshHost env.sshHost = true)
    (hs : env.sshReady = true)
    (hc : env.newSessionCode = 0)
    (hd : (startLoop env 200 0).2 = .died t) :
    (startMinecraftServer env).outcome
      = .err (earlyExitMsg env.startLogContent)
  ∧ t < readyDeadlineMs := by
  constructor
  · rcases ho : startLoop env 200 0 with ⟨tr, o⟩
    rw [ho] at hd
    dsimp only at hd
    subst hd
    simp [startMinecraftServer, hv, hs, hc, ho]
  · exact startLoop_died_bound env 200 0 t hd

/-- Witness for C8: a session observed dead at the very first poll tick. -/
theorem start_early_death_witness :
    (startMinecraftServer
      ⟨some "h", true, 0, "", fun _ => false, fun _ => false, "crash log"⟩).outcome
        = .err (earlyExitMsg "crash log")
  ∧ 0 < readyDeadlineMs :=
  start_early_death
    ⟨some "h", true, 0, "", fun _ => false, fun _ => false, "crash log"⟩ 0
    rfl rfl rfl (by decide)

/-- Positional facts about a trace that starts with the five fixed startup
commands. -/
lemma start_trace_head_props (l : List Cmd) :
    ((Cmd.waitSsh :: Cmd.killSession :: Cmd.truncateLog ::
        Cmd.truncateStartLog :: Cmd.newSession :: l).take 5
      = [Cmd.waitSsh, Cmd.killSession, Cmd.truncateLog,
         Cmd.truncateStartLog, Cmd.newSession])
  ∧ ((Cmd.waitSsh :: Cmd.killSession :: Cmd.truncateLog ::
        Cmd.truncateStartLog :: Cmd.newSession :: l).indexOf Cmd.killSession
      = 1)
  ∧ ((Cmd.waitSsh :: Cmd.killSession :: Cmd.truncateLog ::
        Cmd.truncateStartLog :: Cmd.newSession :: l).indexOf Cmd.newSession
      = 4) := by
  refine ⟨rfl, ?_, ?_⟩
  · rw [List.indexOf_cons_ne _ (by decide), List.indexOf_cons_self]
  · rw [List.indexOf_cons_ne _ (by decide), List.indexOf_cons_ne _ (by decide),
      List.indexOf_cons_ne _ (by decide), List.indexOf_cons_ne _ (by decide),
      List.indexOf_cons_self]

/-- C9: every `startMinecraftServer` run that reaches session creation
issues the stale-session kill strictly before the new-session creation:
the command sequence opens with `waitSsh, killSession, truncateLog,
truncateStartLog, newSession`, placing the kill at index 1 and the
creation at index 4. -/
theorem start_kill_before_create (env : StartEnv)
    (hv : isValidSshHost env.sshHost = true)
    (hs : env.sshReady = true) :
    (((startMinecraftServer env).trace.map Prod.snd).take 5
      = [Cmd.waitSsh, Cmd.killSession, Cmd.truncateLog,
         Cmd.truncateStartLog, Cmd.newSession])
  ∧ ((startMinecraftServer env).trace.map Prod.snd).indexOf Cmd.killSession
      = 1
  ∧ ((startMinecraftServer env).trace.map Prod.snd).indexOf Cmd.newSession
      = 4 := by
  by_cases hc : env.newSessionCode = 0
  · rcases ho : startLoop env 200 0 with ⟨tr, o⟩
    cases o with
    | ready t =>
      have e : startMinecraftServer env = ⟨[(0, Cmd.waitSsh),
          (0, Cmd.killSession), (0, Cmd.truncateLog), (0, Cmd.truncateStartLog),
          (0, Cmd.newSession)] ++ tr, .ok t⟩ := by
        simp [startMinecraftServer, hv, hs, hc, ho]
      rw [e]
      simp only [List.map_append, List.map_cons, List.map_nil,
        List.cons_append, List.nil_append]
      exact start_trace_head_props _
    | died t =>
      have e : startMinecraftServer env = ⟨[(0, Cmd.waitSsh),
          (0, Cmd.killSession), (0, Cmd.truncateLog), (0, Cmd.truncateStartLog),
          (0, Cmd.newSession)] ++ (tr ++ [(t, Cmd.catStartLog)]),
          .err (earlyExitMsg env.startLogContent)⟩ := by
        simp [startMinecraftServer, hv, hs, hc, ho]
      rw [e]
      simp only [List.map_append, List.map_cons, List.map_nil,
        List.cons_append, List.nil_append]
      exact start_trace_head_props _
    | deadline t =>
      have e : startMinecraftServer env = ⟨[(0, Cmd.waitSsh),
          (0, Cmd.killSession), (0, Cmd.truncateLog), (0, Cmd.truncateStartLog),
          (0, Cmd.newSession)] ++ (tr ++ [(t, Cmd.catStartLog)]),
          .err (notReadyMsg env.startLogContent)⟩ := by
        simp [startMinecraftServer, hv, hs, hc, ho]
      rw [e]
      simp only [List.map_append, List.map_cons, List.map_nil,
        List.cons_append, List.nil_append]
      exact start_trace_head_props _
  · have e : startMinecraftServer env = ⟨[(0, Cmd.waitSsh),
        (0, Cmd.killSession), (0, Cmd.truncateLog), (0, Cmd.truncateStartLog),
        (0, Cmd.newSession)],
        .err ("Failed to start tmux session: " ++ env.newSessionStderr)⟩ := by
      simp [startMinecraftServer, hv, hs, hc]
    rw [e]
    simp only [List.map_cons, List.map_nil]
    exact start_trace_head_props []

/-- Witness for C9 at a concrete environment (immediately-ready server). -/
theorem start_kill_before_create_witness :
    (((startMinecraftServer
        ⟨some "h", true, 0, "", fun _ => true, fun _ => true, ""⟩).trace.map
          Prod.snd).take 5
      = [Cmd.waitSsh, Cmd.killSession, Cmd.truncateLog,
         Cmd.truncateStartLog, Cmd.newSession]) :=
  (start_kill_before_create
    ⟨some "h", true, 0, "", fun _ => true, fun _ => true, ""⟩ rfl rfl).1

/-- C10: `op` and `deop` embed only the sanitized player name — every
character outside `[A-Za-z0-9_]` removed — so the console line always has
the fixed shape `op <arg>` / `deop <arg>` with an
alphanumeric-or-underscore argument, for arbitrary caller input. -/
theorem op_deop_sanitized (pn : String) (env : SimpleEnv)
    (hpn : pn.isEmpty = false)
    (hv : isValidSshHost env.sshHost = true)
    (ht : env.tmuxExists = true) :
    opPlayer pn env = Except.ok
      ([Cmd.tmuxHasSession, Cmd.sendKeys ("op " ++ sanitize pn)],
       ⟨true, false⟩)
  ∧ deopPlayer pn env = Except.ok
      ([Cmd.tmuxHasSession, Cmd.sendKeys ("deop " ++ sanitize pn)],
       ⟨true, false⟩)
  ∧ ∀ c ∈ (sanitize pn).data, isWordChar c = true := by
  refine ⟨?_, ?_, ?_⟩
  · simp [opPlayer, hpn, hv, ht]
  · simp [deopPlayer, hpn, hv, ht]
  · intro c hc
    exact List.of_mem_filter hc

/-- Witness for C10: a name with characters outside the allowed class. -/
theorem op_deop_sanitized_witness :
    sanitize "Steve!x" = "Stevex"
  ∧ opPlayer "Steve!x" ⟨some "h", true⟩ = Except.ok
      ([Cmd.tmuxHasSession, Cmd.sendKeys ("op " ++ sanitize "Steve!x")],
       ⟨true, false⟩) :=
  ⟨by decide,
   (op_deop_sanitized "Steve!x" ⟨some "h", true⟩ rfl rfl rfl).1⟩

/-- Witness for C2: a reachable host with a live session whose pid is
alive at 3 s and gone at 6 s. -/
theorem stop_pid_tracking_witness :
    (stopMinecraftServer
      ⟨some "h", true, true, true, "4242", fun t => t < 6000⟩).2.timedOut
        = false :=
  (stop_pid_tracking ⟨some "h", true, true, true, "4242", fun t => t < 6000⟩
    (by decide) rfl (Or.inl rfl)).1 (by decide) (by decide)

end Swamp
